import Mathlib

/-!
# Privileged helper: request/reply dispatch core

A shallow embedding of `src/privileged-helper.c`.

Conventions of the embedding:

* a C string is a Lean `String`, one character per C `char`; a `const char*` that may be
  `NULL` is an `Option String`;
* an XPC dictionary is an association list from keys to values;
* `system` is the one privileged primitive.  It is a parameter `system : String → Int`
  (the `int` it returns for a command line), and every function that may call it also
  returns the list of command lines it handed to it, in order;
* the `void` handlers update the reply in place: here they take the reply and return the
  updated one;
* `helper_event_handler` returns the observable effects of handling one event: the
  command lines run, the messages sent, and the status of `exit` when the process ended.
-/

namespace PrivilegedHelper

/-! ## The XPC object model -/

/-- Value stored under a key of an XPC dictionary: the three scalar types the helper
reads or writes, and `other` for every further XPC type (data, array, ...). -/
inductive XpcValue where
  | string (s : String)
  | bool (b : Bool)
  | int64 (n : Int)
  | other
  deriving DecidableEq

/-- Entries of an XPC dictionary; the first entry of a key is the one that counts. -/
abbrev XpcDict := List (String × XpcValue)

/-- Type tag of an XPC object, as compared by `helper_event_handler`. -/
inductive xpc_type_t where
  | XPC_TYPE_ERROR
  | XPC_TYPE_DICTIONARY
  | XPC_TYPE_OTHER
  deriving DecidableEq

/-- Error-typed objects: the two signals the helper names, and any further one. -/
inductive XpcError where
  | connection_invalid
  | termination_imminent
  | other
  deriving DecidableEq

/-- An object delivered to the event handler.  A dictionary message carries its entries
and whether it came from the wire with a reply context (only then can a reply be paired
to it). -/
inductive xpc_object_t where
  | error (e : XpcError)
  | dictionary (entries : XpcDict) (replyContext : Bool)
  | other
  deriving DecidableEq

/-- Peer connection handle. -/
abbrev xpc_connection_t := Nat

/-- The constant `XPC_ERROR_CONNECTION_INVALID`. -/
def XPC_ERROR_CONNECTION_INVALID : xpc_object_t := .error .connection_invalid

/-- The constant `XPC_ERROR_TERMINATION_IMMINENT`. -/
def XPC_ERROR_TERMINATION_IMMINENT : xpc_object_t := .error .termination_imminent

/-- Modelled from the spec: the transport primitive `xpc_get_type` (spec 4.1, 6: events are
distinguished by type before dispatch). -/
def xpc_get_type : xpc_object_t → xpc_type_t
  | .error _ => .XPC_TYPE_ERROR
  | .dictionary _ _ => .XPC_TYPE_DICTIONARY
  | .other => .XPC_TYPE_OTHER

/-- Modelled from the spec: the transport primitive `xpc_dictionary_create_reply`
(spec 4.1: a freshly created reply object paired to the originating request).  It is the
empty dictionary, and there is none when the message has no reply context. -/
def xpc_dictionary_create_reply : xpc_object_t → Option XpcDict
  | .dictionary _ true => some []
  | _ => none

/-- Modelled from the spec: the transport primitive `xpc_dictionary_get_string`
(spec 4.1: `get_string(key) -> string | absent`).  `none` is the `NULL` returned when the
key is absent or its value is not a string. -/
def xpc_dictionary_get_string (obj : xpc_object_t) (key : String) : Option String :=
  match obj with
  | .dictionary entries _ =>
    match entries.lookup key with
    | some (.string s) => some s
    | _ => none
  | _ => none

/-- Modelled from the spec: the transport primitive `xpc_dictionary_get_bool`
(spec 4.1: `get_bool(key) -> bool`, default false if absent). -/
def xpc_dictionary_get_bool (obj : xpc_object_t) (key : String) : Bool :=
  match obj with
  | .dictionary entries _ =>
    match entries.lookup key with
    | some (.bool b) => b
    | _ => false
  | _ => false

/-- Store `val` under `key`, replacing an earlier entry of that key. -/
def xpc_dictionary_set_value (d : XpcDict) (key : String) (val : XpcValue) : XpcDict :=
  d.filter (fun kv => kv.1 != key) ++ [(key, val)]

/-- Modelled from the spec: the transport primitive `xpc_dictionary_set_string`
(spec 4.1: `set_string` on the reply object). -/
def xpc_dictionary_set_string (d : XpcDict) (key : String) (val : String) : XpcDict :=
  xpc_dictionary_set_value d key (.string val)

/-- Modelled from the spec: the transport primitive `xpc_dictionary_set_int64`
(spec 4.1: `set_int64` on the reply object). -/
def xpc_dictionary_set_int64 (d : XpcDict) (key : String) (val : Int) : XpcDict :=
  xpc_dictionary_set_value d key (.int64 val)

/-- Whether a dictionary has an entry under `key`. -/
def hasKey (d : XpcDict) (key : String) : Bool :=
  (d.lookup key).isSome

/-! ## C library primitives -/

/-- The loop of C `strcmp` over the characters of the two strings: the end of a string is
its NUL, which is below every character. -/
def strcmp_chars : List Char → List Char → Int
  | [], [] => 0
  | [], _ :: _ => -1
  | _ :: _, [] => 1
  | a :: as, b :: bs =>
    if a = b then strcmp_chars as bs else if a.toNat < b.toNat then -1 else 1

/-- C `strcmp`: zero exactly when the two strings are equal, otherwise negative or
positive by the first character that differs. -/
def strcmp (a b : String) : Int :=
  strcmp_chars a.data b.data

/-- C `snprintf(buf, size, ...)` seen through the string left in `buf`: `formatted` is the
whole formatted output, of which at most `size - 1` characters are stored before the
terminating NUL. -/
def snprintf (size : Nat) (formatted : String) : String :=
  ⟨formatted.data.take (size - 1)⟩

/-! ## The handlers -/

/-- What a handler leaves behind: the reply as updated, and the command lines it handed
to `system`. -/
structure HandlerResult where
  reply : XpcDict
  calls : List String
  deriving DecidableEq

/-- Tail shared by the handlers once `system` returned `result` for `command`:
`status = "success"` on zero, otherwise the handler's message and `exit_code`. -/
def report (reply : XpcDict) (command : String) (result : Int) (failure : String) :
    HandlerResult :=
  if result = 0 then
    ⟨xpc_dictionary_set_string reply "status" "success", [command]⟩
  else
    ⟨xpc_dictionary_set_int64 (xpc_dictionary_set_string reply "error" failure)
      "exit_code" result, [command]⟩

/-- `handle_mount_request` (lines 97-124). -/
def handle_mount_request (system : String → Int) (request : xpc_object_t)
    (reply : XpcDict) : HandlerResult :=
  let device := xpc_dictionary_get_string request "device"
  let mountpoint := xpc_dictionary_get_string request "mountpoint"
  let filesystem := xpc_dictionary_get_string request "filesystem"
  match device with
  | none => ⟨xpc_dictionary_set_string reply "error" "No device specified", []⟩
  | some device =>
    let command :=
      match filesystem, mountpoint with
      | some filesystem, some mountpoint =>
        snprintf 1024 ("/sbin/mount -t " ++ filesystem ++ " " ++ device ++ " " ++ mountpoint)
      | none, some mountpoint =>
        snprintf 1024 ("/sbin/mount " ++ device ++ " " ++ mountpoint)
      | _, none =>
        snprintf 1024 ("/sbin/mount " ++ device)
    let result := system command
    report reply command result "Mount failed"

/-- `handle_unmount_request` (lines 126-150). -/
def handle_unmount_request (system : String → Int) (request : xpc_object_t)
    (reply : XpcDict) : HandlerResult :=
  let target := xpc_dictionary_get_string request "target"
  let force := xpc_dictionary_get_bool request "force"
  match target with
  | none => ⟨xpc_dictionary_set_string reply "error" "No target specified", []⟩
  | some target =>
    let command :=
      if force then snprintf 1024 ("/sbin/umount -f " ++ target)
      else snprintf 1024 ("/sbin/umount " ++ target)
    let result := system command
    report reply command result "Unmount failed"

/-- `handle_file_operation` (lines 152-188): the chain of `strcmp ... && source ...`
tests, tried in the order of the source. -/
def handle_file_operation (system : String → Int) (request : xpc_object_t)
    (reply : XpcDict) : HandlerResult :=
  let operation := xpc_dictionary_get_string request "operation"
  let source := xpc_dictionary_get_string request "source"
  let destination := xpc_dictionary_get_string request "destination"
  match operation with
  | none => ⟨xpc_dictionary_set_string reply "error" "No operation specified", []⟩
  | some operation =>
    match decide (strcmp operation "copy" = 0), source, destination with
    | true, some source, some destination =>
      let command := snprintf 2048 ("/bin/cp -R \"" ++ source ++ "\" \"" ++ destination ++ "\"")
      report reply command (system command) "File operation failed"
    | _, _, _ =>
    match decide (strcmp operation "move" = 0), source, destination with
    | true, some source, some destination =>
      let command := snprintf 2048 ("/bin/mv \"" ++ source ++ "\" \"" ++ destination ++ "\"")
      report reply command (system command) "File operation failed"
    | _, _, _ =>
    match decide (strcmp operation "delete" = 0), source with
    | true, some source =>
      let command := snprintf 2048 ("/bin/rm -rf \"" ++ source ++ "\"")
      report reply command (system command) "File operation failed"
    | _, _ =>
    match decide (strcmp operation "mkdir" = 0), source with
    | true, some source =>
      let command := snprintf 2048 ("/bin/mkdir -p \"" ++ source ++ "\"")
      report reply command (system command) "File operation failed"
    | _, _ => ⟨xpc_dictionary_set_string reply "error" "Invalid file operation", []⟩

/-- `handle_command_execution` (lines 190-207): `cmd` goes to `system` as it is. -/
def handle_command_execution (system : String → Int) (request : xpc_object_t)
    (reply : XpcDict) : HandlerResult :=
  let cmd := xpc_dictionary_get_string request "cmd"
  match cmd with
  | none => ⟨xpc_dictionary_set_string reply "error" "No command specified", []⟩
  | some cmd =>
    let result := system cmd
    report reply cmd result "Command execution failed"

/-! ## The event handler -/

/-- Observable effects of handling one event: the command lines handed to `system`, the
messages sent (with the connection they were sent on), and the status passed to `exit`
when the process was ended. -/
structure Effects where
  calls : List String
  sent : List (xpc_connection_t × XpcDict)
  exited : Option Int
  deriving DecidableEq

/-- `helper_event_handler` (lines 47-95). -/
def helper_event_handler (system : String → Int) (peer : xpc_connection_t)
    (event : xpc_object_t) : Effects :=
  let type := xpc_get_type event
  if type = .XPC_TYPE_ERROR then
    if event = XPC_ERROR_CONNECTION_INVALID then ⟨[], [], none⟩
    else if event = XPC_ERROR_TERMINATION_IMMINENT then ⟨[], [], some 0⟩
    else ⟨[], [], none⟩
  else if type ≠ .XPC_TYPE_DICTIONARY then ⟨[], [], none⟩
  else
    match xpc_dictionary_create_reply event with
    | none => ⟨[], [], none⟩
    | some reply =>
      match xpc_dictionary_get_string event "command" with
      | none =>
        ⟨[], [(peer, xpc_dictionary_set_string reply "error" "No command specified")], none⟩
      | some command =>
        let handled : HandlerResult :=
          if strcmp command "mount" = 0 then handle_mount_request system event reply
          else if strcmp command "unmount" = 0 then handle_unmount_request system event reply
          else if strcmp command "file_operation" = 0 then
            handle_file_operation system event reply
          else if strcmp command "execute" = 0 then
            handle_command_execution system event reply
          else ⟨xpc_dictionary_set_string reply "error" "Unknown command", []⟩
        ⟨handled.calls, [(peer, handled.reply)], none⟩

/-- The message each handler writes next to `exit_code` when `system` returned nonzero,
by the command name that selects the handler (lines 121, 147, 185, 204). -/
def failure_message (command : String) : String :=
  if command = "mount" then "Mount failed"
  else if command = "unmount" then "Unmount failed"
  else if command = "file_operation" then "File operation failed"
  else "Command execution failed"

/-! ## Formatted command lines, before they are cut to the buffer -/

/-- The whole text the `snprintf` of `handle_mount_request` formats (lines 109-115), by the
fields that are present. -/
def mount_format (device : String) (mountpoint filesystem : Option String) : String :=
  match filesystem, mountpoint with
  | some filesystem, some mountpoint =>
    "/sbin/mount -t " ++ filesystem ++ " " ++ device ++ " " ++ mountpoint
  | none, some mountpoint => "/sbin/mount " ++ device ++ " " ++ mountpoint
  | _, none => "/sbin/mount " ++ device

/-- The whole text the `snprintf` of `handle_unmount_request` formats (lines 137-141). -/
def unmount_format (target : String) (force : Bool) : String :=
  if force then "/sbin/umount -f " ++ target else "/sbin/umount " ++ target

/-- The whole text the `snprintf` of `handle_file_operation` formats (lines 165-176), in the
order of the chain; `none` when the chain ends in its final `else`. -/
def file_operation_format (operation : String) (source destination : Option String) :
    Option String :=
  match decide (strcmp operation "copy" = 0), source, destination with
  | true, some source, some destination =>
    some ("/bin/cp -R \"" ++ source ++ "\" \"" ++ destination ++ "\"")
  | _, _, _ =>
  match decide (strcmp operation "move" = 0), source, destination with
  | true, some source, some destination =>
    some ("/bin/mv \"" ++ source ++ "\" \"" ++ destination ++ "\"")
  | _, _, _ =>
  match decide (strcmp operation "delete" = 0), source with
  | true, some source => some ("/bin/rm -rf \"" ++ source ++ "\"")
  | _, _ =>
  match decide (strcmp operation "mkdir" = 0), source with
  | true, some source => some ("/bin/mkdir -p \"" ++ source ++ "\"")
  | _, _ => none

/-! ## Vocabulary of the properties -/

/-- A well-formed request, in the words of the specification: a registered command with
its required field present and, for file_operation, a valid operation with its companion
fields (copy and move need `source` and `destination`, delete and mkdir need `source`). -/
def well_formed (request : xpc_object_t) : Bool :=
  match xpc_dictionary_get_string request "command" with
  | none => false
  | some command =>
    if command = "mount" then (xpc_dictionary_get_string request "device").isSome
    else if command = "unmount" then (xpc_dictionary_get_string request "target").isSome
    else if command = "file_operation" then
      match xpc_dictionary_get_string request "operation" with
      | none => false
      | some operation =>
        ((operation = "copy" || operation = "move") &&
          (xpc_dictionary_get_string request "source").isSome &&
          (xpc_dictionary_get_string request "destination").isSome) ||
        ((operation = "delete" || operation = "mkdir") &&
          (xpc_dictionary_get_string request "source").isSome)
    else if command = "execute" then (xpc_dictionary_get_string request "cmd").isSome
    else false

/-- Two requests agree on the string field `key`. -/
def same_string (a b : xpc_object_t) (key : String) : Bool :=
  xpc_dictionary_get_string a key == xpc_dictionary_get_string b key

/-- Two requests agree on `command` and on the fields that belong to that command
(mount: device, mountpoint, filesystem; unmount: target, force; file_operation: operation,
source, destination; execute: cmd); any other key is left free. -/
def agree_on_fields (a b : xpc_object_t) : Bool :=
  same_string a b "command" &&
  match xpc_dictionary_get_string a "command" with
  | none => true
  | some command =>
    if command = "mount" then
      same_string a b "device" && same_string a b "mountpoint" &&
        same_string a b "filesystem"
    else if command = "unmount" then
      same_string a b "target" &&
        (xpc_dictionary_get_bool a "force" == xpc_dictionary_get_bool b "force")
    else if command = "file_operation" then
      same_string a b "operation" && same_string a b "source" &&
        same_string a b "destination"
    else if command = "execute" then same_string a b "cmd"
    else true

/-! ## Basic facts about the primitives -/

theorem strcmp_chars_eq_zero_iff (a b : List Char) : strcmp_chars a b = 0 ↔ a = b := by
  induction a generalizing b with
  | nil => cases b <;> simp [strcmp_chars]
  | cons x xs ih =>
    cases b with
    | nil => simp [strcmp_chars]
    | cons y ys =>
      by_cases hxy : x = y
      · simp [strcmp_chars, hxy, ih]
      · by_cases hlt : x.toNat < y.toNat <;> simp [strcmp_chars, hxy, hlt]

theorem strcmp_eq_zero_iff (a b : String) : strcmp a b = 0 ↔ a = b := by
  unfold strcmp
  rw [strcmp_chars_eq_zero_iff]
  constructor
  · intro h
    exact String.ext h
  · intro h
    rw [h]

theorem snprintf_of_fits (size : Nat) (formatted : String)
    (h : formatted.length < size) : snprintf size formatted = formatted := by
  unfold snprintf
  have hlen : formatted.data.length ≤ size - 1 := by
    have : formatted.data.length = formatted.length := rfl
    omega
  rw [List.take_of_length_le hlen]

theorem set_string_fresh (key val : String) :
    xpc_dictionary_set_string [] key val = [(key, .string val)] := rfl

theorem report_fresh_zero (command failure : String) :
    report [] command 0 failure = ⟨[("status", .string "success")], [command]⟩ := rfl

theorem report_fresh_nonzero (command failure : String) (result : Int) (h : result ≠ 0) :
    report [] command result failure =
      ⟨[("error", .string failure), ("exit_code", .int64 result)], [command]⟩ := by
  unfold report
  rw [if_neg h]
  simp [xpc_dictionary_set_int64, xpc_dictionary_set_string, xpc_dictionary_set_value]

theorem report_calls (reply : XpcDict) (command failure : String) (result : Int) :
    (report reply command result failure).calls = [command] := by
  unfold report
  split <;> rfl

/-! ## Dispatcher: missing and unknown commands -/

/-- C1: for every dictionary-typed request without a `command` string (whatever else it
carries), `system` is never called and the reply paired to the request is sent with the
single entry error = "No command specified".  (A dictionary that arrived without reply
context has no reply object; nothing is sent for it.) -/
theorem missing_command_reply (system : String → Int) (peer : xpc_connection_t)
    (entries : XpcDict) (replyContext : Bool)
    (h : xpc_dictionary_get_string (.dictionary entries replyContext) "command" = none) :
    (helper_event_handler system peer (.dictionary entries replyContext)).calls = [] ∧
    (helper_event_handler system peer (.dictionary entries replyContext)).sent =
      if replyContext then [(peer, [("error", .string "No command specified")])] else [] := by
  cases replyContext <;>
    simp [helper_event_handler, xpc_get_type, xpc_dictionary_create_reply, h, set_string_fresh]

theorem missing_command_reply_witness :
    xpc_dictionary_get_string
        (.dictionary [("device", .string "/dev/disk2"), ("command", .int64 3)] true)
        "command" = none ∧
    (helper_event_handler (fun _ => 1) 4
        (.dictionary [("device", .string "/dev/disk2"), ("command", .int64 3)] true)).calls
      = [] ∧
    (helper_event_handler (fun _ => 1) 4
        (.dictionary [("device", .string "/dev/disk2"), ("command", .int64 3)] true)).sent
      = if true then [(4, [("error", .string "No command specified")])] else [] :=
  ⟨by decide, missing_command_reply (fun _ => 1) 4 _ true (by decide)⟩

/-- C2: for every dictionary-typed request whose `command` string is not exactly one of
"mount", "unmount", "file_operation", "execute", `system` is never called and the reply
paired to the request is sent with the single entry error = "Unknown command"; in
particular it carries neither `status` nor `exit_code`.  (Nothing is sent for a
dictionary without reply context.) -/
theorem unknown_command_reply (system : String → Int) (peer : xpc_connection_t)
    (entries : XpcDict) (replyContext : Bool) (command : String)
    (hcmd : xpc_dictionary_get_string (.dictionary entries replyContext) "command"
      = some command)
    (hunknown : command ∉ ["mount", "unmount", "file_operation", "execute"]) :
    (helper_event_handler system peer (.dictionary entries replyContext)).calls = [] ∧
    (helper_event_handler system peer (.dictionary entries replyContext)).sent =
      (if replyContext then [(peer, [("error", .string "Unknown command")])] else []) ∧
    ∀ m ∈ (helper_event_handler system peer (.dictionary entries replyContext)).sent,
      hasKey m.2 "status" = false ∧ hasKey m.2 "exit_code" = false := by
  simp only [List.mem_cons, List.mem_singleton, List.not_mem_nil, or_false, not_or] at hunknown
  obtain ⟨h1, h2, h3, h4⟩ := hunknown
  have e1 : strcmp command "mount" ≠ 0 := fun h => h1 ((strcmp_eq_zero_iff _ _).1 h)
  have e2 : strcmp command "unmount" ≠ 0 := fun h => h2 ((strcmp_eq_zero_iff _ _).1 h)
  have e3 : strcmp command "file_operation" ≠ 0 := fun h => h3 ((strcmp_eq_zero_iff _ _).1 h)
  have e4 : strcmp command "execute" ≠ 0 := fun h => h4 ((strcmp_eq_zero_iff _ _).1 h)
  cases replyContext
  · simp [helper_event_handler, xpc_get_type, xpc_dictionary_create_reply]
  · simp [helper_event_handler, xpc_get_type, xpc_dictionary_create_reply, hcmd, e1, e2, e3,
      e4, set_string_fresh, hasKey, List.lookup]

theorem unknown_command_reply_witness :
    (helper_event_handler (fun _ => 0) 2
        (.dictionary [("command", .string "Mount"), ("device", .string "/dev/disk2")]
          true)).calls = [] ∧
    (helper_event_handler (fun _ => 0) 2
        (.dictionary [("command", .string "Mount"), ("device", .string "/dev/disk2")]
          true)).sent =
      (if true then [(2, [("error", .string "Unknown command")])] else []) ∧
    ∀ m ∈ (helper_event_handler (fun _ => 0) 2
        (.dictionary [("command", .string "Mount"), ("device", .string "/dev/disk2")]
          true)).sent,
      hasKey m.2 "status" = false ∧ hasKey m.2 "exit_code" = false :=
  unknown_command_reply (fun _ => 0) 2 _ true "Mount" (by decide) (by decide)

/-! ## Handlers: what a run of the privileged action leaves in the reply -/

theorem handle_mount_request_run (system : String → Int) (request : xpc_object_t)
    (reply : XpcDict) (c : String)
    (h : c ∈ (handle_mount_request system request reply).calls) :
    handle_mount_request system request reply = report reply c (system c) "Mount failed" := by
  simp only [handle_mount_request] at h ⊢
  split at h
  · simp at h
  · simp only [report_calls, List.mem_singleton] at h
    subst h
    rfl

theorem handle_unmount_request_run (system : String → Int) (request : xpc_object_t)
    (reply : XpcDict) (c : String)
    (h : c ∈ (handle_unmount_request system request reply).calls) :
    handle_unmount_request system request reply
      = report reply c (system c) "Unmount failed" := by
  simp only [handle_unmount_request] at h ⊢
  split at h
  · simp at h
  · simp only [report_calls, List.mem_singleton] at h
    subst h
    rfl

theorem handle_file_operation_run (system : String → Int) (request : xpc_object_t)
    (reply : XpcDict) (c : String)
    (h : c ∈ (handle_file_operation system request reply).calls) :
    handle_file_operation system request reply
      = report reply c (system c) "File operation failed" := by
  simp only [handle_file_operation] at h ⊢
  split at h
  · simp at h
  · split at h
    · simp only [report_calls, List.mem_singleton] at h
      subst h
      rfl
    · split at h
      · simp only [report_calls, List.mem_singleton] at h
        subst h
        rfl
      · split at h
        · simp only [report_calls, List.mem_singleton] at h
          subst h
          rfl
        · split at h
          · simp only [report_calls, List.mem_singleton] at h
            subst h
            rfl
          · simp at h

theorem handle_command_execution_run (system : String → Int) (request : xpc_object_t)
    (reply : XpcDict) (c : String)
    (h : c ∈ (handle_command_execution system request reply).calls) :
    handle_command_execution system request reply
      = report reply c (system c) "Command execution failed" := by
  simp only [handle_command_execution] at h ⊢
  split at h
  · simp at h
  · simp only [report_calls, List.mem_singleton] at h
    subst h
    rfl

theorem report_fresh_cases (command failure : String) (result : Int) :
    (result = 0 → (report [] command result failure).reply = [("status", .string "success")]) ∧
    (result ≠ 0 → (report [] command result failure).reply
      = [("error", .string failure), ("exit_code", .int64 result)]) := by
  constructor
  · intro h
    rw [h, report_fresh_zero]
  · intro h
    rw [report_fresh_nonzero _ _ _ h]

/-- C3: for every request dispatched to one of the four handlers that reaches a privileged
action (the command line `c` was handed to `system`): when `system c` is 0 the reply sent is
exactly {status: "success"}; when it is a nonzero N the reply sent is exactly
{error: <handler message>, exit_code: N}, the message being "Mount failed",
"Unmount failed", "File operation failed" or "Command execution failed" by handler. -/
theorem action_result_reply (system : String → Int) (peer : xpc_connection_t)
    (entries : XpcDict) (replyContext : Bool) (command c : String)
    (hcmd : xpc_dictionary_get_string (.dictionary entries replyContext) "command"
      = some command)
    (hrun : c ∈ (helper_event_handler system peer (.dictionary entries replyContext)).calls) :
    (system c = 0 →
      (helper_event_handler system peer (.dictionary entries replyContext)).sent
        = [(peer, [("status", .string "success")])]) ∧
    (system c ≠ 0 →
      (helper_event_handler system peer (.dictionary entries replyContext)).sent
        = [(peer, [("error", .string (failure_message command)),
            ("exit_code", .int64 (system c))])]) := by
  cases replyContext
  · simp [helper_event_handler, xpc_get_type, xpc_dictionary_create_reply] at hrun
  · simp only [helper_event_handler, xpc_get_type, xpc_dictionary_create_reply, hcmd,
      strcmp_eq_zero_iff] at hrun ⊢
    simp only [reduceCtorEq, if_false, ne_eq, not_true_eq_false] at hrun ⊢
    have key := report_fresh_cases c (failure_message command) (system c)
    by_cases h1 : command = "mount"
    · subst h1
      have hm : failure_message "mount" = "Mount failed" := by decide
      rw [hm] at key
      simp only [if_true] at hrun ⊢
      rw [handle_mount_request_run _ _ _ _ hrun]
      exact ⟨fun h => by rw [key.1 h], fun h => by rw [key.2 h, hm]⟩
    · simp only [h1, if_false] at hrun ⊢
      by_cases h2 : command = "unmount"
      · subst h2
        have hm : failure_message "unmount" = "Unmount failed" := by decide
        rw [hm] at key
        simp only [if_true] at hrun ⊢
        rw [handle_unmount_request_run _ _ _ _ hrun]
        exact ⟨fun h => by rw [key.1 h], fun h => by rw [key.2 h, hm]⟩
      · simp only [h2, if_false] at hrun ⊢
        by_cases h3 : command = "file_operation"
        · subst h3
          have hm : failure_message "file_operation" = "File operation failed" := by decide
          rw [hm] at key
          simp only [if_true] at hrun ⊢
          rw [handle_file_operation_run _ _ _ _ hrun]
          exact ⟨fun h => by rw [key.1 h], fun h => by rw [key.2 h, hm]⟩
        · simp only [h3, if_false] at hrun ⊢
          by_cases h4 : command = "execute"
          · subst h4
            have hm : failure_message "execute" = "Command execution failed" := by decide
            rw [hm] at key
            simp only [if_true] at hrun ⊢
            rw [handle_command_execution_run _ _ _ _ hrun]
            exact ⟨fun h => by rw [key.1 h], fun h => by rw [key.2 h, hm]⟩
          · simp only [h4, if_false] at hrun ⊢
            simp at hrun

theorem action_result_reply_witness :
    (helper_event_handler (fun _ => 256) 1
      (.dictionary [("command", .string "unmount"), ("target", .string "/Volumes/X")]
        true)).sent
      = [(1, [("error", .string "Unmount failed"), ("exit_code", .int64 256)])] :=
  (action_result_reply (fun _ => 256) 1 _ true "unmount" "/sbin/umount /Volumes/X"
    (by decide) (by decide)).2 (by decide)

/-! ## Shape of every reply -/

theorem handle_mount_request_forms (system : String → Int) (request : xpc_object_t) :
    (∃ msg, handle_mount_request system request [] = ⟨[("error", .string msg)], []⟩) ∨
    (∃ c failure, handle_mount_request system request [] = report [] c (system c) failure) := by
  simp only [handle_mount_request]
  split
  · exact Or.inl ⟨_, rfl⟩
  · exact Or.inr ⟨_, _, rfl⟩

theorem handle_unmount_request_forms (system : String → Int) (request : xpc_object_t) :
    (∃ msg, handle_unmount_request system request [] = ⟨[("error", .string msg)], []⟩) ∨
    (∃ c failure, handle_unmount_request system request []
      = report [] c (system c) failure) := by
  simp only [handle_unmount_request]
  split
  · exact Or.inl ⟨_, rfl⟩
  · exact Or.inr ⟨_, _, rfl⟩

theorem handle_file_operation_forms (system : String → Int) (request : xpc_object_t) :
    (∃ msg, handle_file_operation system request [] = ⟨[("error", .string msg)], []⟩) ∨
    (∃ c failure, handle_file_operation system request []
      = report [] c (system c) failure) := by
  simp only [handle_file_operation]
  split
  · exact Or.inl ⟨_, rfl⟩
  · split
    · exact Or.inr ⟨_, _, rfl⟩
    · split
      · exact Or.inr ⟨_, _, rfl⟩
      · split
        · exact Or.inr ⟨_, _, rfl⟩
        · split
          · exact Or.inr ⟨_, _, rfl⟩
          · exact Or.inl ⟨_, rfl⟩

theorem handle_command_execution_forms (system : String → Int) (request : xpc_object_t) :
    (∃ msg, handle_command_execution system request [] = ⟨[("error", .string msg)], []⟩) ∨
    (∃ c failure, handle_command_execution system request []
      = report [] c (system c) failure) := by
  simp only [handle_command_execution]
  split
  · exact Or.inl ⟨_, rfl⟩
  · exact Or.inr ⟨_, _, rfl⟩

/-- Every dictionary event is handled in one of three ways: nothing at all (no reply
object), a lone `error` entry without any action, or the report of one action. -/
theorem helper_event_handler_forms (system : String → Int) (peer : xpc_connection_t)
    (entries : XpcDict) (replyContext : Bool) :
    helper_event_handler system peer (.dictionary entries replyContext) = ⟨[], [], none⟩ ∨
    (∃ msg, helper_event_handler system peer (.dictionary entries replyContext)
      = ⟨[], [(peer, [("error", .string msg)])], none⟩) ∨
    (∃ c failure, helper_event_handler system peer (.dictionary entries replyContext)
      = ⟨(report [] c (system c) failure).calls,
          [(peer, (report [] c (system c) failure).reply)], none⟩) := by
  cases replyContext
  · left
    simp [helper_event_handler, xpc_get_type, xpc_dictionary_create_reply]
  · right
    simp only [helper_event_handler, xpc_get_type, xpc_dictionary_create_reply]
    simp only [reduceCtorEq, if_false, ne_eq, not_true_eq_false]
    split
    · exact Or.inl ⟨_, rfl⟩
    · split
      · rcases handle_mount_request_forms system (.dictionary entries true) with
          ⟨m, h⟩ | ⟨c, f, h⟩
        · rw [h]; exact Or.inl ⟨_, rfl⟩
        · rw [h]; exact Or.inr ⟨_, _, rfl⟩
      · split
        · rcases handle_unmount_request_forms system (.dictionary entries true) with
            ⟨m, h⟩ | ⟨c, f, h⟩
          · rw [h]; exact Or.inl ⟨_, rfl⟩
          · rw [h]; exact Or.inr ⟨_, _, rfl⟩
        · split
          · rcases handle_file_operation_forms system (.dictionary entries true) with
              ⟨m, h⟩ | ⟨c, f, h⟩
            · rw [h]; exact Or.inl ⟨_, rfl⟩
            · rw [h]; exact Or.inr ⟨_, _, rfl⟩
          · split
            · rcases handle_command_execution_forms system (.dictionary entries true) with
                ⟨m, h⟩ | ⟨c, f, h⟩
              · rw [h]; exact Or.inl ⟨_, rfl⟩
              · rw [h]; exact Or.inr ⟨_, _, rfl⟩
            · exact Or.inl ⟨_, rfl⟩

/-- C4: for every dictionary-typed request and every outcome of the privileged action,
a reply that `helper_event_handler` sends holds exactly one of the keys `status` and
`error`, and holds `exit_code` only next to `error` and only when a privileged action was
invoked for the request. -/
theorem reply_one_outcome (system : String → Int) (peer : xpc_connection_t)
    (entries : XpcDict) (replyContext : Bool) :
    ∀ m ∈ (helper_event_handler system peer (.dictionary entries replyContext)).sent,
      ((hasKey m.2 "status" = true ∧ hasKey m.2 "error" = false) ∨
        (hasKey m.2 "status" = false ∧ hasKey m.2 "error" = true)) ∧
      (hasKey m.2 "exit_code" = true →
        hasKey m.2 "error" = true ∧
        (helper_event_handler system peer (.dictionary entries replyContext)).calls ≠ []) := by
  intro m hm
  rcases helper_event_handler_forms system peer entries replyContext with
    h | ⟨msg, h⟩ | ⟨c, failure, h⟩
  · rw [h] at hm
    simp at hm
  · rw [h] at hm ⊢
    simp only [List.mem_singleton] at hm
    subst hm
    simp [hasKey, List.lookup]
  · rw [h] at hm ⊢
    simp only [List.mem_singleton] at hm
    subst hm
    rw [report_calls]
    by_cases hz : system c = 0
    · rw [hz, report_fresh_zero]
      simp [hasKey, List.lookup]
    · rw [report_fresh_nonzero _ _ _ hz]
      simp [hasKey, List.lookup]

theorem reply_one_outcome_witness :
    ((hasKey [("error", .string "File operation failed"), ("exit_code", .int64 1)] "status"
          = true ∧
        hasKey [("error", .string "File operation failed"), ("exit_code", .int64 1)] "error"
          = false) ∨
      (hasKey [("error", .string "File operation failed"), ("exit_code", .int64 1)] "status"
          = false ∧
        hasKey [("error", .string "File operation failed"), ("exit_code", .int64 1)] "error"
          = true)) ∧
    (hasKey [("error", .string "File operation failed"), ("exit_code", .int64 1)] "exit_code"
        = true →
      hasKey [("error", .string "File operation failed"), ("exit_code", .int64 1)] "error"
        = true ∧
      (helper_event_handler (fun _ => 1) 5
        (.dictionary [("command", .string "file_operation"), ("operation", .string "mkdir"),
          ("source", .string "/tmp/a")] true)).calls ≠ []) :=
  reply_one_outcome (fun _ => 1) 5
    [("command", .string "file_operation"), ("operation", .string "mkdir"),
      ("source", .string "/tmp/a")] true
    (5, [("error", .string "File operation failed"), ("exit_code", .int64 1)]) (by decide)

/-- C5: for every dictionary-typed request event, `helper_event_handler` sends exactly one
message, on the peer connection the event came from, whenever a reply object is created
for the event, on every path; when reply creation yields no reply object it sends
nothing. -/
theorem one_reply_per_request (system : String → Int) (peer : xpc_connection_t)
    (entries : XpcDict) (replyContext : Bool) :
    ((helper_event_handler system peer (.dictionary entries replyContext)).sent.map Prod.fst
      = if (xpc_dictionary_create_reply (.dictionary entries replyContext)).isSome
        then [peer] else []) := by
  cases replyContext
  · simp [helper_event_handler, xpc_get_type, xpc_dictionary_create_reply]
  · rcases helper_event_handler_forms system peer entries true with
      h | ⟨msg, h⟩ | ⟨c, failure, h⟩
    · simp [helper_event_handler, xpc_get_type, xpc_dictionary_create_reply] at h
      split at h <;> simp at h
    · rw [h]
      simp [xpc_dictionary_create_reply]
    · rw [h]
      simp [xpc_dictionary_create_reply]

/-! ## Validation failures of the handlers -/

theorem create_reply_fresh (request : xpc_object_t) (reply : XpcDict)
    (h : xpc_dictionary_create_reply request = some reply) : reply = [] := by
  unfold xpc_dictionary_create_reply at h
  split at h
  · exact (Option.some.inj h).symm
  · exact absurd h (by simp)

/-- C6, as the claim states it, fails: a file_operation request without `operation` is
answered with error = "No operation specified", not "Invalid file operation". -/
theorem missing_operation_not_invalid :
    xpc_dictionary_get_string
      (.dictionary [("command", .string "file_operation"), ("source", .string "/tmp/a")] true)
      "operation" = none ∧
    (helper_event_handler (fun _ => 0) 0
      (.dictionary [("command", .string "file_operation"), ("source", .string "/tmp/a")]
        true)).sent = [(0, [("error", .string "No operation specified")])] ∧
    ¬ ∃ m ∈ (helper_event_handler (fun _ => 0) 0
      (.dictionary [("command", .string "file_operation"), ("source", .string "/tmp/a")]
        true)).sent, m.2.lookup "error" = some (.string "Invalid file operation") := by
  decide

/-- C6, amended: for every file_operation request that has no `operation` string, the
handler invokes no privileged action and the reply is exactly
{error: "No operation specified"}. -/
theorem missing_operation_reply (system : String → Int) (request : xpc_object_t)
    (reply : XpcDict) (hreply : xpc_dictionary_create_reply request = some reply)
    (hop : xpc_dictionary_get_string request "operation" = none) :
    handle_file_operation system request reply
      = ⟨[("error", .string "No operation specified")], []⟩ := by
  rw [create_reply_fresh request reply hreply]
  simp only [handle_file_operation, hop]
  rfl

theorem missing_operation_reply_witness :
    handle_file_operation (fun _ => 0)
      (.dictionary [("command", .string "file_operation"), ("source", .string "/tmp/a"),
        ("destination", .string "/tmp/b")] true) []
      = ⟨[("error", .string "No operation specified")], []⟩ :=
  missing_operation_reply (fun _ => 0) _ [] (by decide) (by decide)

/-- C7: for every file_operation request whose `operation` is present but whose companion
fields are insufficient ("copy" or "move" without `source` or without `destination`;
"delete" or "mkdir" without `source`), or whose operation is none of copy, move, delete,
mkdir, the handler invokes no privileged action and the reply is exactly
{error: "Invalid file operation"}. -/
theorem invalid_file_operation_reply (system : String → Int) (request : xpc_object_t)
    (reply : XpcDict) (operation : String)
    (hreply : xpc_dictionary_create_reply request = some reply)
    (hop : xpc_dictionary_get_string request "operation" = some operation)
    (hbad :
      ((operation = "copy" ∨ operation = "move") ∧
        (xpc_dictionary_get_string request "source" = none ∨
          xpc_dictionary_get_string request "destination" = none)) ∨
      ((operation = "delete" ∨ operation = "mkdir") ∧
        xpc_dictionary_get_string request "source" = none) ∨
      operation ∉ ["copy", "move", "delete", "mkdir"]) :
    handle_file_operation system request reply
      = ⟨[("error", .string "Invalid file operation")], []⟩ := by
  rw [create_reply_fresh request reply hreply]
  have hcm : ¬ ("copy" = "move") := by decide
  have hcd : ¬ ("copy" = "delete") := by decide
  have hck : ¬ ("copy" = "mkdir") := by decide
  have hmc : ¬ ("move" = "copy") := by decide
  have hmd : ¬ ("move" = "delete") := by decide
  have hmk : ¬ ("move" = "mkdir") := by decide
  have hdc : ¬ ("delete" = "copy") := by decide
  have hdm : ¬ ("delete" = "move") := by decide
  have hdk : ¬ ("delete" = "mkdir") := by decide
  have hkc : ¬ ("mkdir" = "copy") := by decide
  have hkm : ¬ ("mkdir" = "move") := by decide
  have hkd : ¬ ("mkdir" = "delete") := by decide
  rcases hbad with ⟨hopv, hmiss⟩ | ⟨hopv, hmiss⟩ | hnone
  · cases hs : xpc_dictionary_get_string request "source" <;>
      cases hd : xpc_dictionary_get_string request "destination" <;>
      rcases hopv with rfl | rfl <;>
      simp_all [handle_file_operation, strcmp_eq_zero_iff, set_string_fresh]
  · cases hd : xpc_dictionary_get_string request "destination" <;>
      rcases hopv with rfl | rfl <;>
      simp_all [handle_file_operation, strcmp_eq_zero_iff, set_string_fresh]
  · simp only [List.mem_cons, List.mem_singleton, List.not_mem_nil, or_false, not_or] at hnone
    obtain ⟨n1, n2, n3, n4⟩ := hnone
    cases hs : xpc_dictionary_get_string request "source" <;>
      cases hd : xpc_dictionary_get_string request "destination" <;>
      simp_all [handle_file_operation, strcmp_eq_zero_iff, set_string_fresh]

theorem invalid_file_operation_reply_witness :
    handle_file_operation (fun _ => 0)
      (.dictionary [("command", .string "file_operation"), ("operation", .string "copy"),
        ("source", .string "/tmp/a")] true) []
      = ⟨[("error", .string "Invalid file operation")], []⟩ :=
  invalid_file_operation_reply (fun _ => 0) _ [] "copy" (by decide) (by decide)
    (Or.inl ⟨Or.inl rfl, Or.inr (by decide)⟩)

/-! ## Command lines of the mount and unmount handlers -/

/-- C8, as the claim states it, fails: for the device "/dev/disk2" alone the command line
handed to `system` is "/sbin/mount /dev/disk2", not "mount /dev/disk2"; likewise with a
mountpoint and with a filesystem. -/
theorem mount_command_line_not_bare :
    ("/sbin/mount -t hfs /dev/disk2 /Volumes/X").length < 1024 ∧
    (handle_mount_request (fun _ => 0)
        (.dictionary [("command", .string "mount"), ("device", .string "/dev/disk2")] true)
        []).calls = ["/sbin/mount /dev/disk2"] ∧
    (handle_mount_request (fun _ => 0)
        (.dictionary [("command", .string "mount"), ("device", .string "/dev/disk2")] true)
        []).calls ≠ ["mount /dev/disk2"] ∧
    (handle_mount_request (fun _ => 0)
        (.dictionary [("command", .string "mount"), ("device", .string "/dev/disk2"),
          ("mountpoint", .string "/Volumes/X")] true) []).calls
      ≠ ["mount /dev/disk2 /Volumes/X"] ∧
    (handle_mount_request (fun _ => 0)
        (.dictionary [("command", .string "mount"), ("device", .string "/dev/disk2"),
          ("mountpoint", .string "/Volumes/X"), ("filesystem", .string "hfs")] true) []).calls
      ≠ ["mount -t hfs /dev/disk2 /Volumes/X"] := by
  decide

/-- C8, amended: for every mount request whose formatted command fits the 1024-byte
buffer, the command line handed to `system` names the program by its absolute path: with
device d and neither mountpoint nor filesystem it is exactly `/sbin/mount d`; with device
d and mountpoint m (no filesystem) it is exactly `/sbin/mount d m`; with device d,
mountpoint m and filesystem f it is exactly `/sbin/mount -t f d m`. -/
theorem mount_command_line (system : String → Int) (request : xpc_object_t)
    (reply : XpcDict) (d : String)
    (hd : xpc_dictionary_get_string request "device" = some d) :
    (xpc_dictionary_get_string request "mountpoint" = none →
      xpc_dictionary_get_string request "filesystem" = none →
      ("/sbin/mount " ++ d).length < 1024 →
      (handle_mount_request system request reply).calls = ["/sbin/mount " ++ d]) ∧
    (∀ m, xpc_dictionary_get_string request "mountpoint" = some m →
      xpc_dictionary_get_string request "filesystem" = none →
      ("/sbin/mount " ++ d ++ " " ++ m).length < 1024 →
      (handle_mount_request system request reply).calls = ["/sbin/mount " ++ d ++ " " ++ m]) ∧
    (∀ m f, xpc_dictionary_get_string request "mountpoint" = some m →
      xpc_dictionary_get_string request "filesystem" = some f →
      ("/sbin/mount -t " ++ f ++ " " ++ d ++ " " ++ m).length < 1024 →
      (handle_mount_request system request reply).calls
        = ["/sbin/mount -t " ++ f ++ " " ++ d ++ " " ++ m]) := by
  refine ⟨?_, ?_, ?_⟩
  · intro hm hf hfit
    simp only [handle_mount_request, hd, hm, hf, report_calls, snprintf_of_fits _ _ hfit]
  · intro m hm hf hfit
    simp only [handle_mount_request, hd, hm, hf, report_calls, snprintf_of_fits _ _ hfit]
  · intro m f hm hf hfit
    simp only [handle_mount_request, hd, hm, hf, report_calls, snprintf_of_fits _ _ hfit]

theorem mount_command_line_witness :
    (handle_mount_request (fun _ => 0)
        (.dictionary [("command", .string "mount"), ("device", .string "/dev/disk2")] true)
        []).calls = ["/sbin/mount " ++ "/dev/disk2"] ∧
    (handle_mount_request (fun _ => 0)
        (.dictionary [("command", .string "mount"), ("device", .string "/dev/disk2"),
          ("mountpoint", .string "/Volumes/X")] true) []).calls
      = ["/sbin/mount " ++ "/dev/disk2" ++ " " ++ "/Volumes/X"] ∧
    (handle_mount_request (fun _ => 0)
        (.dictionary [("command", .string "mount"), ("device", .string "/dev/disk2"),
          ("mountpoint", .string "/Volumes/X"), ("filesystem", .string "hfs")] true) []).calls
      = ["/sbin/mount -t " ++ "hfs" ++ " " ++ "/dev/disk2" ++ " " ++ "/Volumes/X"] :=
  ⟨(mount_command_line (fun _ => 0)
      (.dictionary [("command", .string "mount"), ("device", .string "/dev/disk2")] true) []
      "/dev/disk2" (by decide)).1 (by decide) (by decide) (by decide),
    (mount_command_line (fun _ => 0)
      (.dictionary [("command", .string "mount"), ("device", .string "/dev/disk2"),
        ("mountpoint", .string "/Volumes/X")] true) []
      "/dev/disk2" (by decide)).2.1 "/Volumes/X" (by decide) (by decide) (by decide),
    (mount_command_line (fun _ => 0)
      (.dictionary [("command", .string "mount"), ("device", .string "/dev/disk2"),
        ("mountpoint", .string "/Volumes/X"), ("filesystem", .string "hfs")] true) []
      "/dev/disk2" (by decide)).2.2 "/Volumes/X" "hfs" (by decide) (by decide) (by decide)⟩

/-- C9, as the claim states it, fails: for the target "/Volumes/X" the command line handed
to `system` is "/sbin/umount -f /Volumes/X" with force and "/sbin/umount /Volumes/X"
without, not "umount -f /Volumes/X" and "umount /Volumes/X". -/
theorem unmount_command_line_not_bare :
    ("/sbin/umount -f /Volumes/X").length < 1024 ∧
    (handle_unmount_request (fun _ => 0)
        (.dictionary [("command", .string "unmount"), ("target", .string "/Volumes/X"),
          ("force", .bool true)] true) []).calls = ["/sbin/umount -f /Volumes/X"] ∧
    (handle_unmount_request (fun _ => 0)
        (.dictionary [("command", .string "unmount"), ("target", .string "/Volumes/X"),
          ("force", .bool true)] true) []).calls ≠ ["umount -f /Volumes/X"] ∧
    (handle_unmount_request (fun _ => 0)
        (.dictionary [("command", .string "unmount"), ("target", .string "/Volumes/X")] true)
        []).calls ≠ ["umount /Volumes/X"] := by
  decide

/-- C9, amended: for every unmount request with target t whose formatted command fits the
1024-byte buffer, the command line handed to `system` names the program by its absolute
path: when `force` is true it is exactly `/sbin/umount -f t`; when `force` is absent or
false it is exactly `/sbin/umount t`. -/
theorem unmount_command_line (system : String → Int) (entries : XpcDict)
    (replyContext : Bool) (reply : XpcDict) (t : String)
    (ht : xpc_dictionary_get_string (.dictionary entries replyContext) "target" = some t) :
    (entries.lookup "force" = some (.bool true) →
      ("/sbin/umount -f " ++ t).length < 1024 →
      (handle_unmount_request system (.dictionary entries replyContext) reply).calls
        = ["/sbin/umount -f " ++ t]) ∧
    ((entries.lookup "force" = none ∨ entries.lookup "force" = some (.bool false)) →
      ("/sbin/umount " ++ t).length < 1024 →
      (handle_unmount_request system (.dictionary entries replyContext) reply).calls
        = ["/sbin/umount " ++ t]) := by
  refine ⟨?_, ?_⟩
  · intro hf hfit
    simp only [handle_unmount_request, ht, xpc_dictionary_get_bool, hf, report_calls,
      if_true, snprintf_of_fits _ _ hfit]
  · intro hf hfit
    rcases hf with hf | hf <;>
      simp [handle_unmount_request, ht, xpc_dictionary_get_bool, hf, report_calls,
        snprintf_of_fits _ _ hfit]

theorem unmount_command_line_witness :
    (handle_unmount_request (fun _ => 0)
        (.dictionary [("command", .string "unmount"), ("target", .string "/Volumes/X"),
          ("force", .bool true)] true) []).calls
      = ["/sbin/umount -f " ++ "/Volumes/X"] ∧
    (handle_unmount_request (fun _ => 0)
        (.dictionary [("command", .string "unmount"), ("target", .string "/Volumes/X"),
          ("force", .bool false)] true) []).calls
      = ["/sbin/umount " ++ "/Volumes/X"] ∧
    (handle_unmount_request (fun _ => 0)
        (.dictionary [("command", .string "unmount"), ("target", .string "/Volumes/X")] true)
        []).calls
      = ["/sbin/umount " ++ "/Volumes/X"] :=
  ⟨(unmount_command_line (fun _ => 0)
      [("command", .string "unmount"), ("target", .string "/Volumes/X"),
        ("force", .bool true)] true [] "/Volumes/X" (by decide)).1 (by decide) (by decide),
    (unmount_command_line (fun _ => 0)
      [("command", .string "unmount"), ("target", .string "/Volumes/X"),
        ("force", .bool false)] true [] "/Volumes/X" (by decide)).2
      (Or.inr (by decide)) (by decide),
    (unmount_command_line (fun _ => 0)
      [("command", .string "unmount"), ("target", .string "/Volumes/X")] true []
      "/Volumes/X" (by decide)).2 (Or.inl (by decide)) (by decide)⟩

/-! ## Required fields of mount, unmount and execute -/

/-- C10: a mount request without `device`, an unmount request without `target` and an
execute request without `cmd` make the handler invoke no privileged action and leave a
reply of exactly one error entry: "No device specified", "No target specified" and
"No command specified" respectively.  Conversely each of the three handlers invokes a
privileged action only if its required field is present. -/
theorem required_field_missing (system : String → Int) (request : xpc_object_t)
    (reply : XpcDict) (hreply : xpc_dictionary_create_reply request = some reply) :
    (xpc_dictionary_get_string request "device" = none →
      handle_mount_request system request reply
        = ⟨[("error", .string "No device specified")], []⟩) ∧
    (xpc_dictionary_get_string request "target" = none →
      handle_unmount_request system request reply
        = ⟨[("error", .string "No target specified")], []⟩) ∧
    (xpc_dictionary_get_string request "cmd" = none →
      handle_command_execution system request reply
        = ⟨[("error", .string "No command specified")], []⟩) ∧
    ((handle_mount_request system request reply).calls ≠ [] →
      (xpc_dictionary_get_string request "device").isSome = true) ∧
    ((handle_unmount_request system request reply).calls ≠ [] →
      (xpc_dictionary_get_string request "target").isSome = true) ∧
    ((handle_command_execution system request reply).calls ≠ [] →
      (xpc_dictionary_get_string request "cmd").isSome = true) := by
  rw [create_reply_fresh request reply hreply]
  refine ⟨?_, ?_, ?_, ?_, ?_, ?_⟩
  · intro h
    simp only [handle_mount_request, h, set_string_fresh]
  · intro h
    simp only [handle_unmount_request, h, set_string_fresh]
  · intro h
    simp only [handle_command_execution, h, set_string_fresh]
  · intro h
    cases hd : xpc_dictionary_get_string request "device"
    · simp [handle_mount_request, hd] at h
    · rfl
  · intro h
    cases hd : xpc_dictionary_get_string request "target"
    · simp [handle_unmount_request, hd] at h
    · rfl
  · intro h
    cases hd : xpc_dictionary_get_string request "cmd"
    · simp [handle_command_execution, hd] at h
    · rfl

theorem required_field_missing_witness :
    handle_mount_request (fun _ => 0)
        (.dictionary [("command", .string "mount"), ("mountpoint", .string "/Volumes/X")]
          true) []
      = ⟨[("error", .string "No device specified")], []⟩ ∧
    handle_unmount_request (fun _ => 0)
        (.dictionary [("command", .string "mount"), ("mountpoint", .string "/Volumes/X")]
          true) []
      = ⟨[("error", .string "No target specified")], []⟩ ∧
    handle_command_execution (fun _ => 0)
        (.dictionary [("command", .string "mount"), ("mountpoint", .string "/Volumes/X")]
          true) []
      = ⟨[("error", .string "No command specified")], []⟩ :=
  ⟨(required_field_missing (fun _ => 0) _ [] (by decide)).1 (by decide),
    (required_field_missing (fun _ => 0) _ [] (by decide)).2.1 (by decide),
    (required_field_missing (fun _ => 0) _ [] (by decide)).2.2.1 (by decide)⟩

/-! ## Events that are not requests -/

/-- C11: for every event whose type is not the dictionary type (the connection-invalid
signal, the termination-imminent signal, any other error-typed object, an object of any
other type), `helper_event_handler` sends no reply and invokes no privileged action. -/
theorem non_dictionary_event_ignored (system : String → Int) (peer : xpc_connection_t)
    (event : xpc_object_t) (h : xpc_get_type event ≠ .XPC_TYPE_DICTIONARY) :
    (helper_event_handler system peer event).sent = [] ∧
    (helper_event_handler system peer event).calls = [] := by
  cases event with
  | error e => cases e <;> exact ⟨rfl, rfl⟩
  | dictionary entries replyContext => exact absurd rfl h
  | other => exact ⟨rfl, rfl⟩

theorem non_dictionary_event_ignored_witness :
    ((helper_event_handler (fun _ => 0) 3 XPC_ERROR_CONNECTION_INVALID).sent = [] ∧
      (helper_event_handler (fun _ => 0) 3 XPC_ERROR_CONNECTION_INVALID).calls = []) ∧
    ((helper_event_handler (fun _ => 0) 3 XPC_ERROR_TERMINATION_IMMINENT).sent = [] ∧
      (helper_event_handler (fun _ => 0) 3 XPC_ERROR_TERMINATION_IMMINENT).calls = []) ∧
    ((helper_event_handler (fun _ => 0) 3 (.error .other)).sent = [] ∧
      (helper_event_handler (fun _ => 0) 3 (.error .other)).calls = []) ∧
    ((helper_event_handler (fun _ => 0) 3 .other).sent = [] ∧
      (helper_event_handler (fun _ => 0) 3 .other).calls = []) :=
  ⟨non_dictionary_event_ignored (fun _ => 0) 3 XPC_ERROR_CONNECTION_INVALID (by decide),
    non_dictionary_event_ignored (fun _ => 0) 3 XPC_ERROR_TERMINATION_IMMINENT (by decide),
    non_dictionary_event_ignored (fun _ => 0) 3 (.error .other) (by decide),
    non_dictionary_event_ignored (fun _ => 0) 3 .other (by decide)⟩

/-! ## How often the privileged action runs -/

theorem handle_mount_request_calls (system : String → Int) (request : xpc_object_t)
    (reply : XpcDict) :
    (handle_mount_request system request reply).calls.length
      = if (xpc_dictionary_get_string request "device").isSome then 1 else 0 := by
  cases hd : xpc_dictionary_get_string request "device" <;>
    simp [handle_mount_request, hd, report_calls]

theorem handle_unmount_request_calls (system : String → Int) (request : xpc_object_t)
    (reply : XpcDict) :
    (handle_unmount_request system request reply).calls.length
      = if (xpc_dictionary_get_string request "target").isSome then 1 else 0 := by
  cases hd : xpc_dictionary_get_string request "target" <;>
    simp [handle_unmount_request, hd, report_calls]

theorem handle_command_execution_calls (system : String → Int) (request : xpc_object_t)
    (reply : XpcDict) :
    (handle_command_execution system request reply).calls.length
      = if (xpc_dictionary_get_string request "cmd").isSome then 1 else 0 := by
  cases hd : xpc_dictionary_get_string request "cmd" <;>
    simp [handle_command_execution, hd, report_calls]

theorem handle_file_operation_calls (system : String → Int) (request : xpc_object_t)
    (reply : XpcDict) :
    (handle_file_operation system request reply).calls
      = match xpc_dictionary_get_string request "operation" with
        | none => []
        | some operation =>
          match file_operation_format operation (xpc_dictionary_get_string request "source")
              (xpc_dictionary_get_string request "destination") with
          | none => []
          | some formatted => [snprintf 2048 formatted] := by
  simp only [handle_file_operation, file_operation_format]
  split
  · rfl
  · split
    · simp [report_calls]
    · split
      · simp [report_calls]
      · split
        · simp [report_calls]
        · split
          · simp [report_calls]
          · rfl

theorem file_operation_format_isSome (operation : String) (source destination : Option String) :
    (file_operation_format operation source destination).isSome
      = (((operation = "copy" || operation = "move") && source.isSome && destination.isSome) ||
          ((operation = "delete" || operation = "mkdir") && source.isSome)) := by
  have hcm : ¬ ("copy" = "move") := by decide
  have hcd : ¬ ("copy" = "delete") := by decide
  have hck : ¬ ("copy" = "mkdir") := by decide
  have hmd : ¬ ("move" = "delete") := by decide
  have hmk : ¬ ("move" = "mkdir") := by decide
  have hdk : ¬ ("delete" = "mkdir") := by decide
  by_cases h1 : operation = "copy"
  · subst h1
    cases source <;> cases destination <;>
      simp [file_operation_format, strcmp_eq_zero_iff, hcm, hcd, hck]
  · by_cases h2 : operation = "move"
    · subst h2
      cases source <;> cases destination <;>
        simp [file_operation_format, strcmp_eq_zero_iff, h1, hmd, hmk]
    · by_cases h3 : operation = "delete"
      · subst h3
        cases source <;> cases destination <;>
          simp [file_operation_format, strcmp_eq_zero_iff, h1, h2, hdk]
      · by_cases h4 : operation = "mkdir"
        · subst h4
          cases source <;> cases destination <;>
            simp [file_operation_format, strcmp_eq_zero_iff, h1, h2, h3]
        · cases source <;> cases destination <;>
            simp [file_operation_format, strcmp_eq_zero_iff, h1, h2, h3, h4]

theorem handle_file_operation_calls_length (system : String → Int) (request : xpc_object_t)
    (reply : XpcDict) :
    (handle_file_operation system request reply).calls.length
      = if (match xpc_dictionary_get_string request "operation" with
          | none => false
          | some operation =>
            ((operation = "copy" || operation = "move") &&
              (xpc_dictionary_get_string request "source").isSome &&
              (xpc_dictionary_get_string request "destination").isSome) ||
            ((operation = "delete" || operation = "mkdir") &&
              (xpc_dictionary_get_string request "source").isSome)) = true
        then 1 else 0 := by
  rw [handle_file_operation_calls]
  cases hop : xpc_dictionary_get_string request "operation" with
  | none => simp
  | some operation =>
    have hsome := file_operation_format_isSome operation
      (xpc_dictionary_get_string request "source")
      (xpc_dictionary_get_string request "destination")
    cases hfmt : file_operation_format operation (xpc_dictionary_get_string request "source")
      (xpc_dictionary_get_string request "destination") with
    | none =>
      rw [hfmt] at hsome
      simp only [Option.isSome_none] at hsome
      simp only [← hsome, hfmt]
      simp
    | some formatted =>
      rw [hfmt] at hsome
      simp only [Option.isSome_some] at hsome
      simp only [← hsome, hfmt]
      simp

/-- Number of calls of `system` for a dictionary event that has a reply context. -/
theorem helper_event_handler_calls_length (system : String → Int) (peer : xpc_connection_t)
    (entries : XpcDict) :
    (helper_event_handler system peer (.dictionary entries true)).calls.length
      = if well_formed (.dictionary entries true) = true then 1 else 0 := by
  cases hc : xpc_dictionary_get_string (.dictionary entries true) "command" with
  | none =>
    simp [helper_event_handler, xpc_get_type, xpc_dictionary_create_reply, well_formed, hc]
  | some command =>
    simp only [helper_event_handler, xpc_get_type, xpc_dictionary_create_reply, well_formed,
      strcmp_eq_zero_iff, hc]
    simp only [reduceCtorEq, if_false, ne_eq, not_true_eq_false]
    by_cases h1 : command = "mount"
    · simp only [h1, if_true, handle_mount_request_calls]
    · simp only [h1, if_false]
      by_cases h2 : command = "unmount"
      · simp only [h2, if_true, handle_unmount_request_calls]
      · simp only [h2, if_false]
        by_cases h3 : command = "file_operation"
        · simp only [h3, if_true, handle_file_operation_calls_length]
        · simp only [h3, if_false]
          by_cases h4 : command = "execute"
          · simp only [h4, if_true, handle_command_execution_calls]
          · simp [h4]

/-- C12, as the claim states it, fails: a well-formed execute request that arrived without
reply context is dropped before dispatch, so `system` is not invoked for it at all. -/
theorem well_formed_request_not_run :
    well_formed (.dictionary [("command", .string "execute"), ("cmd", .string "/bin/ls")]
      false) = true ∧
    (helper_event_handler (fun _ => 0) 0
      (.dictionary [("command", .string "execute"), ("cmd", .string "/bin/ls")] false)).calls
      = [] ∧
    (helper_event_handler (fun _ => 0) 0
      (.dictionary [("command", .string "execute"), ("cmd", .string "/bin/ls")]
        false)).calls.length ≠ 1 := by
  decide

/-- C12, amended: for every event and every result of `system`, `helper_event_handler`
invokes `system` at most once (so never again after a nonzero result); it invokes it
exactly once when the request is well-formed and a reply object is created for it, and
not at all otherwise. -/
theorem action_at_most_once (system : String → Int) (peer : xpc_connection_t)
    (event : xpc_object_t) :
    (helper_event_handler system peer event).calls.length ≤ 1 ∧
    (helper_event_handler system peer event).calls.length
      = if ((xpc_dictionary_create_reply event).isSome && well_formed event) = true
        then 1 else 0 := by
  have key : (helper_event_handler system peer event).calls.length
      = if ((xpc_dictionary_create_reply event).isSome && well_formed event) = true
        then 1 else 0 := by
    cases event with
    | error e => cases e <;> rfl
    | other => rfl
    | dictionary entries replyContext =>
      cases replyContext
      · simp [helper_event_handler, xpc_get_type, xpc_dictionary_create_reply]
      · rw [helper_event_handler_calls_length]
        simp [xpc_dictionary_create_reply]
  refine ⟨?_, key⟩
  rw [key]
  split <;> simp

/-! ## Command lines of the execute and file_operation handlers -/

/-- C13: for every execute request with `cmd` = c, of any length and content, the string
handed to `system` is exactly c: nothing is prepended, appended, quoted, escaped or cut. -/
theorem execute_verbatim (system : String → Int) (request : xpc_object_t)
    (reply : XpcDict) (c : String)
    (hcmd : xpc_dictionary_get_string request "cmd" = some c) :
    (handle_command_execution system request reply).calls = [c] := by
  simp only [handle_command_execution, hcmd, report_calls]

theorem execute_verbatim_witness :
    (handle_command_execution (fun _ => 0)
      (.dictionary [("command", .string "execute"),
        ("cmd", .string "rm -rf \"/tmp/a b\"; echo $HOME 'x' \\ | cat")] true) []).calls
      = ["rm -rf \"/tmp/a b\"; echo $HOME 'x' \\ | cat"] :=
  execute_verbatim (fun _ => 0) _ [] _ (by decide)

/-- C14: for every file_operation request with valid fields whose formatted command fits
the 2048-byte buffer, the command line handed to `system` is
`/bin/cp -R "<source>" "<destination>"` for copy, `/bin/mv "<source>" "<destination>"` for
move, `/bin/rm -rf "<source>"` for delete and `/bin/mkdir -p "<source>"` for mkdir; for
delete and mkdir it is the same whether `destination` is present or not, whatever its
value. -/
theorem file_operation_command_line (system : String → Int) (request : xpc_object_t)
    (reply : XpcDict) (src : String)
    (hsrc : xpc_dictionary_get_string request "source" = some src) :
    (∀ dst, xpc_dictionary_get_string request "operation" = some "copy" →
      xpc_dictionary_get_string request "destination" = some dst →
      ("/bin/cp -R \"" ++ src ++ "\" \"" ++ dst ++ "\"").length < 2048 →
      (handle_file_operation system request reply).calls
        = ["/bin/cp -R \"" ++ src ++ "\" \"" ++ dst ++ "\""]) ∧
    (∀ dst, xpc_dictionary_get_string request "operation" = some "move" →
      xpc_dictionary_get_string request "destination" = some dst →
      ("/bin/mv \"" ++ src ++ "\" \"" ++ dst ++ "\"").length < 2048 →
      (handle_file_operation system request reply).calls
        = ["/bin/mv \"" ++ src ++ "\" \"" ++ dst ++ "\""]) ∧
    (xpc_dictionary_get_string request "operation" = some "delete" →
      ("/bin/rm -rf \"" ++ src ++ "\"").length < 2048 →
      (handle_file_operation system request reply).calls
        = ["/bin/rm -rf \"" ++ src ++ "\""]) ∧
    (xpc_dictionary_get_string request "operation" = some "mkdir" →
      ("/bin/mkdir -p \"" ++ src ++ "\"").length < 2048 →
      (handle_file_operation system request reply).calls
        = ["/bin/mkdir -p \"" ++ src ++ "\""]) := by
  have hcm : ¬ ("move" = "copy") := by decide
  have hdc : ¬ ("delete" = "copy") := by decide
  have hdm : ¬ ("delete" = "move") := by decide
  have hkc : ¬ ("mkdir" = "copy") := by decide
  have hkm : ¬ ("mkdir" = "move") := by decide
  have hkd : ¬ ("mkdir" = "delete") := by decide
  refine ⟨?_, ?_, ?_, ?_⟩
  · intro dst hop hdst hfit
    rw [handle_file_operation_calls, hop, hsrc, hdst]
    simp [file_operation_format, strcmp_eq_zero_iff, snprintf_of_fits _ _ hfit]
  · intro dst hop hdst hfit
    rw [handle_file_operation_calls, hop, hsrc, hdst]
    simp [file_operation_format, strcmp_eq_zero_iff, hcm, snprintf_of_fits _ _ hfit]
  · intro hop hfit
    rw [handle_file_operation_calls, hop, hsrc]
    cases xpc_dictionary_get_string request "destination" <;>
      simp [file_operation_format, strcmp_eq_zero_iff, hdc, hdm, snprintf_of_fits _ _ hfit]
  · intro hop hfit
    rw [handle_file_operation_calls, hop, hsrc]
    cases xpc_dictionary_get_string request "destination" <;>
      simp [file_operation_format, strcmp_eq_zero_iff, hkc, hkm, hkd,
        snprintf_of_fits _ _ hfit]

theorem file_operation_command_line_witness :
    (handle_file_operation (fun _ => 0)
        (.dictionary [("command", .string "file_operation"), ("operation", .string "copy"),
          ("source", .string "/tmp/a"), ("destination", .string "/tmp/b")] true) []).calls
      = ["/bin/cp -R \"" ++ "/tmp/a" ++ "\" \"" ++ "/tmp/b" ++ "\""] ∧
    (handle_file_operation (fun _ => 0)
        (.dictionary [("command", .string "file_operation"), ("operation", .string "move"),
          ("source", .string "/tmp/a"), ("destination", .string "/tmp/b")] true) []).calls
      = ["/bin/mv \"" ++ "/tmp/a" ++ "\" \"" ++ "/tmp/b" ++ "\""] ∧
    (handle_file_operation (fun _ => 0)
        (.dictionary [("command", .string "file_operation"), ("operation", .string "delete"),
          ("source", .string "/tmp/a"), ("destination", .string "/tmp/b")] true) []).calls
      = ["/bin/rm -rf \"" ++ "/tmp/a" ++ "\""] ∧
    (handle_file_operation (fun _ => 0)
        (.dictionary [("command", .string "file_operation"), ("operation", .string "mkdir"),
          ("source", .string "/tmp/a")] true) []).calls
      = ["/bin/mkdir -p \"" ++ "/tmp/a" ++ "\""] :=
  ⟨(file_operation_command_line (fun _ => 0)
      (.dictionary [("command", .string "file_operation"), ("operation", .string "copy"),
        ("source", .string "/tmp/a"), ("destination", .string "/tmp/b")] true) []
      "/tmp/a" (by decide)).1 "/tmp/b" (by decide) (by decide) (by decide),
    (file_operation_command_line (fun _ => 0)
      (.dictionary [("command", .string "file_operation"), ("operation", .string "move"),
        ("source", .string "/tmp/a"), ("destination", .string "/tmp/b")] true) []
      "/tmp/a" (by decide)).2.1 "/tmp/b" (by decide) (by decide) (by decide),
    (file_operation_command_line (fun _ => 0)
      (.dictionary [("command", .string "file_operation"), ("operation", .string "delete"),
        ("source", .string "/tmp/a"), ("destination", .string "/tmp/b")] true) []
      "/tmp/a" (by decide)).2.2.1 (by decide) (by decide),
    (file_operation_command_line (fun _ => 0)
      (.dictionary [("command", .string "file_operation"), ("operation", .string "mkdir"),
        ("source", .string "/tmp/a")] true) []
      "/tmp/a" (by decide)).2.2.2 (by decide) (by decide)⟩

/-! ## Mount: when the filesystem is passed -/

/-- C16: for every mount request with `device` present and `mountpoint` absent, the
filesystem is dropped: whether `filesystem` is present or not, the command line is the one
of the request that holds the same device alone, built without `-t`.  The `-t <filesystem>`
form is built exactly when both `filesystem` and `mountpoint` are present: with a
mountpoint and no filesystem the command line is built without `-t` as well. -/
theorem mount_filesystem_needs_mountpoint (system : String → Int) (request : xpc_object_t)
    (reply : XpcDict) (d : String)
    (hd : xpc_dictionary_get_string request "device" = some d) :
    (xpc_dictionary_get_string request "mountpoint" = none →
      (handle_mount_request system request reply).calls
          = [snprintf 1024 ("/sbin/mount " ++ d)] ∧
      (handle_mount_request system request reply).calls
          = (handle_mount_request system (.dictionary [("device", .string d)] true)
              reply).calls) ∧
    (∀ m f, xpc_dictionary_get_string request "mountpoint" = some m →
      xpc_dictionary_get_string request "filesystem" = some f →
      (handle_mount_request system request reply).calls
        = [snprintf 1024 ("/sbin/mount -t " ++ f ++ " " ++ d ++ " " ++ m)]) ∧
    (∀ m, xpc_dictionary_get_string request "mountpoint" = some m →
      xpc_dictionary_get_string request "filesystem" = none →
      (handle_mount_request system request reply).calls
        = [snprintf 1024 ("/sbin/mount " ++ d ++ " " ++ m)]) := by
  refine ⟨?_, ?_, ?_⟩
  · intro hm
    have hcall : (handle_mount_request system request reply).calls
        = [snprintf 1024 ("/sbin/mount " ++ d)] := by
      cases hf : xpc_dictionary_get_string request "filesystem" <;>
        simp only [handle_mount_request, hd, hm, hf, report_calls]
    refine ⟨hcall, ?_⟩
    rw [hcall]
    have hd2 : xpc_dictionary_get_string (.dictionary [("device", .string d)] true) "device"
        = some d := by
      simp [xpc_dictionary_get_string, List.lookup]
    have hm2 : xpc_dictionary_get_string (.dictionary [("device", .string d)] true)
        "mountpoint" = none := by
      simp [xpc_dictionary_get_string, List.lookup]
    have hf2 : xpc_dictionary_get_string (.dictionary [("device", .string d)] true)
        "filesystem" = none := by
      simp [xpc_dictionary_get_string, List.lookup]
    simp only [handle_mount_request, hd2, hm2, hf2, report_calls]
  · intro m f hm hf
    simp only [handle_mount_request, hd, hm, hf, report_calls]
  · intro m hm hf
    simp only [handle_mount_request, hd, hm, hf, report_calls]

theorem mount_filesystem_needs_mountpoint_witness :
    ((handle_mount_request (fun _ => 0)
        (.dictionary [("command", .string "mount"), ("device", .string "/dev/disk2"),
          ("filesystem", .string "hfs")] true) []).calls
        = [snprintf 1024 ("/sbin/mount " ++ "/dev/disk2")] ∧
      (handle_mount_request (fun _ => 0)
        (.dictionary [("command", .string "mount"), ("device", .string "/dev/disk2"),
          ("filesystem", .string "hfs")] true) []).calls
        = (handle_mount_request (fun _ => 0)
            (.dictionary [("device", .string "/dev/disk2")] true) []).calls) ∧
    (handle_mount_request (fun _ => 0)
        (.dictionary [("command", .string "mount"), ("device", .string "/dev/disk2"),
          ("filesystem", .string "hfs")] true) []).calls = ["/sbin/mount /dev/disk2"] :=
  ⟨(mount_filesystem_needs_mountpoint (fun _ => 0)
      (.dictionary [("command", .string "mount"), ("device", .string "/dev/disk2"),
        ("filesystem", .string "hfs")] true) [] "/dev/disk2" (by decide)).1 (by decide),
    by decide⟩

/-! ## When the service exits -/

/-- C17: `helper_event_handler` ends the service, with status 0, exactly on the
termination-imminent signal: on the connection-invalid signal, on any other error-typed
event, on an object of another type and on every dictionary request, whatever its contents
and whatever `system` returns, it returns without exiting. -/
theorem exit_only_on_termination (system : String → Int) (peer : xpc_connection_t)
    (event : xpc_object_t) :
    (helper_event_handler system peer event).exited
      = if event = XPC_ERROR_TERMINATION_IMMINENT then some 0 else none := by
  cases event with
  | error e => cases e <;> rfl
  | other => rfl
  | dictionary entries replyContext =>
    have hne : (xpc_object_t.dictionary entries replyContext)
        ≠ XPC_ERROR_TERMINATION_IMMINENT := by
      simp [XPC_ERROR_TERMINATION_IMMINENT]
    rw [if_neg hne]
    rcases helper_event_handler_forms system peer entries replyContext with
      h | ⟨msg, h⟩ | ⟨c, failure, h⟩ <;> rw [h]

/-! ## Command lines longer than the buffer -/

theorem snprintf_eq_take_min (size : Nat) (formatted : String) :
    snprintf size formatted
      = ⟨formatted.data.take (min formatted.length (size - 1))⟩ := by
  unfold snprintf
  have hlen : formatted.data.length = formatted.length := rfl
  by_cases h : formatted.length ≤ size - 1
  · rw [Nat.min_eq_left h, List.take_of_length_le (by omega), List.take_of_length_le (by omega)]
  · rw [Nat.min_eq_right (by omega)]

theorem snprintf_length (size : Nat) (formatted : String) :
    (snprintf size formatted).length = min formatted.length (size - 1) := by
  have hlen : formatted.data.length = formatted.length := rfl
  show (formatted.data.take (size - 1)).length = _
  rw [List.length_take, hlen, Nat.min_comm]

theorem snprintf_ne_of_exceeds (size : Nat) (formatted : String)
    (h : size - 1 < formatted.length) : snprintf size formatted ≠ formatted := by
  intro heq
  have hl := snprintf_length size formatted
  rw [heq] at hl
  omega

theorem handle_mount_request_calls_format (system : String → Int) (request : xpc_object_t)
    (reply : XpcDict) (d : String)
    (hd : xpc_dictionary_get_string request "device" = some d) :
    (handle_mount_request system request reply).calls
      = [snprintf 1024 (mount_format d (xpc_dictionary_get_string request "mountpoint")
          (xpc_dictionary_get_string request "filesystem"))] := by
  cases hm : xpc_dictionary_get_string request "mountpoint" <;>
    cases hf : xpc_dictionary_get_string request "filesystem" <;>
    simp only [handle_mount_request, mount_format, hd, hm, hf, report_calls]

theorem handle_unmount_request_calls_format (system : String → Int) (request : xpc_object_t)
    (reply : XpcDict) (t : String)
    (ht : xpc_dictionary_get_string request "target" = some t) :
    (handle_unmount_request system request reply).calls
      = [snprintf 1024 (unmount_format t (xpc_dictionary_get_bool request "force"))] := by
  cases hf : xpc_dictionary_get_bool request "force" <;>
    simp [handle_unmount_request, unmount_format, ht, hf, report_calls]

/-- C18: the command line `handle_mount_request` and `handle_unmount_request` hand to
`system` is always the first min(L, 1023) characters of the whole formatted command of
length L, and the one of `handle_file_operation` the first min(L, 2047): when the formatted
command exceeds the buffer the handler still invokes the action, on a cut command line
that differs from the formatted one. -/
theorem command_line_cut_to_buffer (system : String → Int) (request : xpc_object_t)
    (reply : XpcDict) :
    (∀ d, xpc_dictionary_get_string request "device" = some d →
      (handle_mount_request system request reply).calls
        = [⟨(mount_format d (xpc_dictionary_get_string request "mountpoint")
              (xpc_dictionary_get_string request "filesystem")).data.take
            (min (mount_format d (xpc_dictionary_get_string request "mountpoint")
              (xpc_dictionary_get_string request "filesystem")).length 1023)⟩] ∧
      (1023 < (mount_format d (xpc_dictionary_get_string request "mountpoint")
          (xpc_dictionary_get_string request "filesystem")).length →
        (handle_mount_request system request reply).calls
          ≠ [mount_format d (xpc_dictionary_get_string request "mountpoint")
              (xpc_dictionary_get_string request "filesystem")])) ∧
    (∀ t, xpc_dictionary_get_string request "target" = some t →
      (handle_unmount_request system request reply).calls
        = [⟨(unmount_format t (xpc_dictionary_get_bool request "force")).data.take
            (min (unmount_format t (xpc_dictionary_get_bool request "force")).length 1023)⟩] ∧
      (1023 < (unmount_format t (xpc_dictionary_get_bool request "force")).length →
        (handle_unmount_request system request reply).calls
          ≠ [unmount_format t (xpc_dictionary_get_bool request "force")])) ∧
    (∀ operation formatted, xpc_dictionary_get_string request "operation" = some operation →
      file_operation_format operation (xpc_dictionary_get_string request "source")
        (xpc_dictionary_get_string request "destination") = some formatted →
      (handle_file_operation system request reply).calls
        = [⟨formatted.data.take (min formatted.length 2047)⟩] ∧
      (2047 < formatted.length →
        (handle_file_operation system request reply).calls ≠ [formatted])) := by
  refine ⟨?_, ?_, ?_⟩
  · intro d hd
    rw [handle_mount_request_calls_format system request reply d hd]
    refine ⟨by rw [snprintf_eq_take_min], ?_⟩
    intro hlong heq
    exact snprintf_ne_of_exceeds 1024 _ (by omega) (List.cons.inj heq).1
  · intro t ht
    rw [handle_unmount_request_calls_format system request reply t ht]
    refine ⟨by rw [snprintf_eq_take_min], ?_⟩
    intro hlong heq
    exact snprintf_ne_of_exceeds 1024 _ (by omega) (List.cons.inj heq).1
  · intro operation formatted hop hfmt
    rw [handle_file_operation_calls, hop]
    simp only [hfmt]
    refine ⟨by rw [snprintf_eq_take_min], ?_⟩
    intro hlong heq
    exact snprintf_ne_of_exceeds 2048 _ (by omega) (List.cons.inj heq).1

theorem command_line_cut_to_buffer_witness :
    1023 < (mount_format ⟨List.replicate 1100 'x'⟩ none none).length ∧
    (handle_mount_request (fun _ => 0)
        (.dictionary [("command", .string "mount"),
          ("device", .string ⟨List.replicate 1100 'x'⟩)] true) []).calls
      ≠ [mount_format ⟨List.replicate 1100 'x'⟩ none none] ∧
    (handle_mount_request (fun _ => 0)
        (.dictionary [("command", .string "mount"),
          ("device", .string ⟨List.replicate 1100 'x'⟩)] true) []).calls
      = [⟨(mount_format ⟨List.replicate 1100 'x'⟩ none none).data.take
          (min (mount_format ⟨List.replicate 1100 'x'⟩ none none).length 1023)⟩] :=
  have hlong : 1023 < (mount_format ⟨List.replicate 1100 'x'⟩ none none).length := by
    have hfmt : mount_format ⟨List.replicate 1100 'x'⟩ none none
        = "/sbin/mount " ++ ⟨List.replicate 1100 'x'⟩ := rfl
    have hlen : (String.mk (List.replicate 1100 'x')).length = 1100 :=
      List.length_replicate 1100 'x'
    rw [hfmt, String.length_append, hlen]
    omega
  ⟨hlong,
    ((command_line_cut_to_buffer (fun _ => 0)
      (.dictionary [("command", .string "mount"),
        ("device", .string ⟨List.replicate 1100 'x'⟩)] true) []).1
      ⟨List.replicate 1100 'x'⟩ rfl).2 hlong,
    ((command_line_cut_to_buffer (fun _ => 0)
      (.dictionary [("command", .string "mount"),
        ("device", .string ⟨List.replicate 1100 'x'⟩)] true) []).1
      ⟨List.replicate 1100 'x'⟩ rfl).1⟩

/-! ## Required fields that are present but empty -/

/-- C19: validation tests presence, not content.  When the required field is the empty
string (mount with device "", unmount with target "", execute with cmd "", delete or mkdir
with source ""), the handler reports no validation error: it hands a command line to
`system` (`/sbin/mount ` for an empty device alone, the empty string for an empty cmd) and
the reply is the report of that action's result. -/
theorem empty_required_field_runs (system : String → Int) (request : xpc_object_t)
    (reply : XpcDict) :
    (xpc_dictionary_get_string request "device" = some "" →
      (∃ c, handle_mount_request system request reply
        = report reply c (system c) "Mount failed") ∧
      (xpc_dictionary_get_string request "mountpoint" = none →
        handle_mount_request system request reply
          = report reply "/sbin/mount " (system "/sbin/mount ") "Mount failed")) ∧
    (xpc_dictionary_get_string request "target" = some "" →
      (∃ c, handle_unmount_request system request reply
        = report reply c (system c) "Unmount failed") ∧
      (xpc_dictionary_get_bool request "force" = false →
        handle_unmount_request system request reply
          = report reply "/sbin/umount " (system "/sbin/umount ") "Unmount failed")) ∧
    (xpc_dictionary_get_string request "cmd" = some "" →
      handle_command_execution system request reply
        = report reply "" (system "") "Command execution failed") ∧
    (xpc_dictionary_get_string request "source" = some "" →
      xpc_dictionary_get_string request "operation" = some "delete" →
      handle_file_operation system request reply
        = report reply "/bin/rm -rf \"\"" (system "/bin/rm -rf \"\"")
            "File operation failed") ∧
    (xpc_dictionary_get_string request "source" = some "" →
      xpc_dictionary_get_string request "operation" = some "mkdir" →
      handle_file_operation system request reply
        = report reply "/bin/mkdir -p \"\"" (system "/bin/mkdir -p \"\"")
            "File operation failed") := by
  have e1 : snprintf 1024 ("/sbin/mount " ++ "") = "/sbin/mount " := by decide
  have e2 : snprintf 1024 ("/sbin/umount " ++ "") = "/sbin/umount " := by decide
  have e3 : snprintf 2048 ("/bin/rm -rf \"" ++ "" ++ "\"") = "/bin/rm -rf \"\"" := by decide
  have e4 : snprintf 2048 ("/bin/mkdir -p \"" ++ "" ++ "\"") = "/bin/mkdir -p \"\"" := by
    decide
  have n2 : snprintf 1024 "/sbin/umount " = "/sbin/umount " := by decide
  have n3 : snprintf 2048 "/bin/rm -rf \"\"" = "/bin/rm -rf \"\"" := by decide
  have n4 : snprintf 2048 "/bin/mkdir -p \"\"" = "/bin/mkdir -p \"\"" := by decide
  have hdc : ¬ ("delete" = "copy") := by decide
  have hdm : ¬ ("delete" = "move") := by decide
  have hkc : ¬ ("mkdir" = "copy") := by decide
  have hkm : ¬ ("mkdir" = "move") := by decide
  have hkd : ¬ ("mkdir" = "delete") := by decide
  refine ⟨?_, ?_, ?_, ?_, ?_⟩
  · intro hd
    refine ⟨?_, ?_⟩
    · simp only [handle_mount_request, hd]
      exact ⟨_, rfl⟩
    · intro hm
      cases hf : xpc_dictionary_get_string request "filesystem" <;>
        simp only [handle_mount_request, hd, hm, hf, e1]
  · intro ht
    refine ⟨?_, ?_⟩
    · simp only [handle_unmount_request, ht]
      exact ⟨_, rfl⟩
    · intro hf
      simp [handle_unmount_request, ht, hf, e2, n2]
  · intro hc
    simp only [handle_command_execution, hc]
  · intro hs hop
    cases hd : xpc_dictionary_get_string request "destination" <;>
      simp [handle_file_operation, hs, hop, hd, strcmp_eq_zero_iff, hdc, hdm, e3, n3]
  · intro hs hop
    cases hd : xpc_dictionary_get_string request "destination" <;>
      simp [handle_file_operation, hs, hop, hd, strcmp_eq_zero_iff, hkc, hkm, hkd, e4, n4]

theorem empty_required_field_runs_witness :
    handle_mount_request (fun _ => 0)
        (.dictionary [("command", .string "mount"), ("device", .string "")] true) []
      = report [] "/sbin/mount " ((fun _ => 0) "/sbin/mount ") "Mount failed" ∧
    handle_unmount_request (fun _ => 0)
        (.dictionary [("command", .string "unmount"), ("target", .string "")] true) []
      = report [] "/sbin/umount " ((fun _ => 0) "/sbin/umount ") "Unmount failed" ∧
    handle_command_execution (fun _ => 7)
        (.dictionary [("command", .string "execute"), ("cmd", .string "")] true) []
      = report [] "" ((fun _ => 7) "") "Command execution failed" ∧
    handle_file_operation (fun _ => 0)
        (.dictionary [("command", .string "file_operation"), ("operation", .string "delete"),
          ("source", .string "")] true) []
      = report [] "/bin/rm -rf \"\"" ((fun _ => 0) "/bin/rm -rf \"\"")
          "File operation failed" ∧
    handle_file_operation (fun _ => 0)
        (.dictionary [("command", .string "file_operation"), ("operation", .string "mkdir"),
          ("source", .string "")] true) []
      = report [] "/bin/mkdir -p \"\"" ((fun _ => 0) "/bin/mkdir -p \"\"")
          "File operation failed" :=
  ⟨((empty_required_field_runs (fun _ => 0)
      (.dictionary [("command", .string "mount"), ("device", .string "")] true) []).1
      (by decide)).2 (by decide),
    ((empty_required_field_runs (fun _ => 0)
      (.dictionary [("command", .string "unmount"), ("target", .string "")] true) []).2.1
      (by decide)).2 (by decide),
    (empty_required_field_runs (fun _ => 7)
      (.dictionary [("command", .string "execute"), ("cmd", .string "")] true) []).2.2.1
      (by decide),
    (empty_required_field_runs (fun _ => 0)
      (.dictionary [("command", .string "file_operation"), ("operation", .string "delete"),
        ("source", .string "")] true) []).2.2.2.1 (by decide) (by decide),
    (empty_required_field_runs (fun _ => 0)
      (.dictionary [("command", .string "file_operation"), ("operation", .string "mkdir"),
        ("source", .string "")] true) []).2.2.2.2 (by decide) (by decide)⟩

/-! ## What a request's handling depends on -/

theorem handle_mount_request_congr (system : String → Int) (a b : xpc_object_t)
    (reply : XpcDict)
    (h1 : xpc_dictionary_get_string a "device" = xpc_dictionary_get_string b "device")
    (h2 : xpc_dictionary_get_string a "mountpoint" = xpc_dictionary_get_string b "mountpoint")
    (h3 : xpc_dictionary_get_string a "filesystem" = xpc_dictionary_get_string b "filesystem") :
    handle_mount_request system a reply = handle_mount_request system b reply := by
  simp only [handle_mount_request, h1, h2, h3]

theorem handle_unmount_request_congr (system : String → Int) (a b : xpc_object_t)
    (reply : XpcDict)
    (h1 : xpc_dictionary_get_string a "target" = xpc_dictionary_get_string b "target")
    (h2 : xpc_dictionary_get_bool a "force" = xpc_dictionary_get_bool b "force") :
    handle_unmount_request system a reply = handle_unmount_request system b reply := by
  simp only [handle_unmount_request, h1, h2]

theorem handle_file_operation_congr (system : String → Int) (a b : xpc_object_t)
    (reply : XpcDict)
    (h1 : xpc_dictionary_get_string a "operation" = xpc_dictionary_get_string b "operation")
    (h2 : xpc_dictionary_get_string a "source" = xpc_dictionary_get_string b "source")
    (h3 : xpc_dictionary_get_string a "destination"
      = xpc_dictionary_get_string b "destination") :
    handle_file_operation system a reply = handle_file_operation system b reply := by
  simp only [handle_file_operation, h1, h2, h3]

theorem handle_command_execution_congr (system : String → Int) (a b : xpc_object_t)
    (reply : XpcDict)
    (h1 : xpc_dictionary_get_string a "cmd" = xpc_dictionary_get_string b "cmd") :
    handle_command_execution system a reply = handle_command_execution system b reply := by
  simp only [handle_command_execution, h1]

/-- C15, as the claim states it, fails: two execute requests with the same entries, one
that arrived with a reply context and one without, are not handled alike: the first runs
its `cmd` and is answered, the second is dropped before dispatch. -/
theorem same_fields_not_same_handling :
    agree_on_fields
      (.dictionary [("command", .string "execute"), ("cmd", .string "/bin/ls")] true)
      (.dictionary [("command", .string "execute"), ("cmd", .string "/bin/ls")] false)
      = true ∧
    (helper_event_handler (fun _ => 0) 0
      (.dictionary [("command", .string "execute"), ("cmd", .string "/bin/ls")] true))
      = ⟨["/bin/ls"], [(0, [("status", .string "success")])], none⟩ ∧
    (helper_event_handler (fun _ => 0) 0
      (.dictionary [("command", .string "execute"), ("cmd", .string "/bin/ls")] false))
      = ⟨[], [], none⟩ := by
  decide

/-- C15, amended: the reply and the privileged action for a request depend only on
`command`, on the fields belonging to that command and on whether a reply object is
created for the request: two dictionary requests that agree on those fields and on the
creation of a reply object are handled alike under the same `system`, with the same
command lines run and the same reply sent, whatever other keys either request carries. -/
theorem handling_depends_on_fields (system : String → Int) (peer : xpc_connection_t)
    (entries1 entries2 : XpcDict) (context1 context2 : Bool)
    (hagree : agree_on_fields (.dictionary entries1 context1)
      (.dictionary entries2 context2) = true)
    (hreply : (xpc_dictionary_create_reply (.dictionary entries1 context1)).isSome
      = (xpc_dictionary_create_reply (.dictionary entries2 context2)).isSome) :
    helper_event_handler system peer (.dictionary entries1 context1)
      = helper_event_handler system peer (.dictionary entries2 context2) := by
  have hctx : context1 = context2 := by
    cases context1 <;> cases context2 <;> simp [xpc_dictionary_create_reply] at hreply ⊢
  subst hctx
  cases context1
  · simp [helper_event_handler, xpc_get_type, xpc_dictionary_create_reply]
  · simp only [agree_on_fields, same_string, Bool.and_eq_true, beq_iff_eq] at hagree
    obtain ⟨hcmd, hrest⟩ := hagree
    cases hc : xpc_dictionary_get_string (.dictionary entries1 true) "command" with
    | none =>
      rw [hc] at hcmd
      simp [helper_event_handler, xpc_get_type, xpc_dictionary_create_reply, hc, ← hcmd]
    | some command =>
      rw [hc] at hcmd hrest
      simp only [helper_event_handler, xpc_get_type, xpc_dictionary_create_reply, hc, ← hcmd,
        strcmp_eq_zero_iff]
      simp only [reduceCtorEq, if_false, ne_eq, not_true_eq_false]
      by_cases h1 : command = "mount"
      · simp only [h1, if_true, Bool.and_eq_true, beq_iff_eq] at hrest ⊢
        rw [handle_mount_request_congr system _ _ [] hrest.1.1 hrest.1.2 hrest.2]
      · simp only [h1, if_false] at hrest ⊢
        by_cases h2 : command = "unmount"
        · simp only [h2, if_true, Bool.and_eq_true, beq_iff_eq] at hrest ⊢
          rw [handle_unmount_request_congr system _ _ [] hrest.1 hrest.2]
        · simp only [h2, if_false] at hrest ⊢
          by_cases h3 : command = "file_operation"
          · simp only [h3, if_true, Bool.and_eq_true, beq_iff_eq] at hrest ⊢
            rw [handle_file_operation_congr system _ _ [] hrest.1.1 hrest.1.2 hrest.2]
          · simp only [h3, if_false] at hrest ⊢
            by_cases h4 : command = "execute"
            · simp only [h4, if_true, beq_iff_eq] at hrest ⊢
              rw [handle_command_execution_congr system _ _ [] hrest]
            · simp only [h4, if_false]

theorem handling_depends_on_fields_witness :
    helper_event_handler (fun _ => 1) 9
      (.dictionary [("command", .string "unmount"), ("target", .string "/Volumes/X"),
        ("device", .string "/dev/disk2"), ("note", .int64 4)] true)
      = helper_event_handler (fun _ => 1) 9
      (.dictionary [("force", .string "yes"), ("target", .string "/Volumes/X"),
        ("command", .string "unmount"), ("cmd", .string "/bin/ls")] true) :=
  handling_depends_on_fields (fun _ => 1) 9 _ _ true true (by decide) (by decide)

end PrivilegedHelper
